import Mathlib

/-!
Shallow embedding of the Realized-Volatility-Prediction exploration scripts
(`load_data.py` and `visualize_data.py`).

Modelling conventions:
* A pandas `DataFrame` is a `Table`: a list of column names plus a list of
  rows, each row a list of rational cell values (all columns of the real
  dataset are numeric; numeric values are modelled as `ℚ`).
* The filesystem is a map from path strings to an optional `FileContent`:
  `none` = the path does not exist, `FileContent.table t` = an existing file
  that parses into table `t`, `FileContent.corrupt` = an existing file whose
  read raises inside the pandas / pyarrow reader.
* Console output is modelled as a list of structured `Msg` events (one event
  per `print` call; purely textual formatting is abstracted into the event's
  payload).
* A Python function that can let an exception escape is modelled with result
  type `Res α`: either `.ok out v` (normal return of `v` after printing
  `out`) or `.exn out e` (exception `e` propagates after printing `out`).
-/

namespace RVP

/-- A cell value of one of the tabular datasets (all columns are numeric). -/
abbrev Val := ℚ

/-- A pandas `DataFrame`: named columns and rows of cells. -/
structure Table where
  cols : List String
  rows : List (List Val)
deriving DecidableEq, Repr

/-- Well-formedness of a `DataFrame`: every row has one cell per column and
column names are distinct (pandas column labels in these files are unique). -/
def Table.WF (t : Table) : Prop :=
  (∀ r ∈ t.rows, r.length = t.cols.length) ∧ t.cols.Nodup

/-- Membership test `c in df.columns`. -/
def Table.hasCol (t : Table) (c : String) : Bool := t.cols.contains c

/-- Index of the first occurrence of a label in a label list. -/
def idxOf? (c : String) : List String → Option Nat
  | [] => none
  | a :: as => if a == c then some 0 else (idxOf? c as).map (· + 1)

/-- Position of a column label, `df.columns.get_loc(c)`. -/
def Table.colIdx (t : Table) (c : String) : Option Nat :=
  idxOf? c t.cols

/-- The series `df[c]` (empty when the column is absent; a present column of
a well-formed table never hits the default). -/
def Table.getCol (t : Table) (c : String) : List Val :=
  match t.colIdx c with
  | some i => t.rows.map (fun r => r.getD i 0)
  | none => []

/-- Column assignment `df[c] = vs`: overwrite in place when the label exists,
otherwise append the column at the end (pandas semantics). -/
def Table.setCol (t : Table) (c : String) (vs : List Val) : Table :=
  if t.cols.contains c then
    { cols := t.cols
      rows := (t.rows.zip vs).map (fun p => p.1.set ((idxOf? c t.cols).getD 0) p.2) }
  else
    { cols := t.cols ++ [c]
      rows := (t.rows.zip vs).map (fun p => p.1 ++ [p.2]) }

/-- Unique-value count `series.nunique()` (the samples contain no missing values). -/
def nuniqueL (xs : List Val) : Nat := xs.dedup.length

/-- Unique-value count `df[c].nunique()`. -/
def Table.nunique (t : Table) (c : String) : Nat := nuniqueL (t.getCol c)

/-- Mean `series.mean()` (on the empty series pandas yields NaN; the model yields
`0` via rational division by zero — no claim touches the empty mean). -/
def meanL (xs : List Val) : Val := xs.sum / (xs.length : ℚ)

/-- Maximum `series.max()` (default `0` on the empty series, where pandas yields NaN). -/
def maxL (xs : List Val) : Val := xs.foldr max 0

/-- Sum `series.sum()`. -/
def sumL (xs : List Val) : Val := xs.sum

/-- Median `series.median()`. -/
def medianL (xs : List Val) : Val :=
  let s := xs.insertionSort (· ≤ ·)
  let n := xs.length
  if n = 0 then 0
  else if n % 2 = 1 then s.getD (n / 2) 0
  else (s.getD (n / 2 - 1) 0 + s.getD (n / 2) 0) / 2

/-- The square of `series.std()` (sample variance, `ddof=1`); the source
prints its square root, which is irrational in general, so the model carries
the variance. -/
def varL (xs : List Val) : Val :=
  let m := meanL xs
  ((xs.map (fun x => (x - m) ^ 2)).sum) / ((xs.length : ℚ) - 1)

/-- Content of an existing file: a parseable table, or a file whose read
raises inside the reader. -/
inductive FileContent where
  | table (t : Table)
  | corrupt
deriving DecidableEq

/-- Filesystem state: `none` = path absent, `some c` = present with content. -/
def FS := String → Option FileContent

/-- One console `print` event. -/
inductive Msg where
  | fileStatus (name : String) (found : Bool) (path : String)
  | fileNotFound (path : String)
  | structureHeader (path : String)
  | metadataInfo
  | metadataError
  | loadingHeader (path : String)
  | sampleLoaded (n : Nat)
  | allLoaded (n : Nat)
  | loadError
  | targetsHeader
  | targetsShape (r c : Nat)
  | explorationHeader (name : String)
  | shapeMsg (r c : Nat)
  | columnsMsg (cols : List String)
  | dtypesMsg
  | headMsg
  | missingMsg
  | describeMsg
  | stockMsg (n : Nat)
  | timeMsg (n : Nat)
  | secondsMsg
  | noTargetsMsg
  | noBookMsg
  | noTradeMsg
deriving DecidableEq

/-- Result of a call that prints `out` and either returns normally or lets an
exception (named by a string) propagate to the caller. -/
inductive Res (α : Type) where
  | ok (out : List Msg) (val : α)
  | exn (out : List Msg) (e : String)
deriving DecidableEq

/-- Whether a `Res` carries no exception. -/
def Res.isOk {α : Type} : Res α → Bool
  | .ok _ _ => true
  | .exn _ _ => false

/-- The printed output of a `Res`. -/
def Res.out {α : Type} : Res α → List Msg
  | .ok o _ => o
  | .exn o _ => o

/-- The `DataLoader` object: only the configured root directory is state. -/
structure DataLoader where
  data_path : String
deriving DecidableEq

def DataLoader.book_train_path (l : DataLoader) : String :=
  l.data_path ++ "/book_train.parquet"

def DataLoader.book_test_path (l : DataLoader) : String :=
  l.data_path ++ "/book_test.parquet"

def DataLoader.trade_train_path (l : DataLoader) : String :=
  l.data_path ++ "/trade_train.parquet"

def DataLoader.trade_test_path (l : DataLoader) : String :=
  l.data_path ++ "/trade_test.parquet"

def DataLoader.train_csv_path (l : DataLoader) : String :=
  l.data_path ++ "/train.csv"

def DataLoader.test_csv_path (l : DataLoader) : String :=
  l.data_path ++ "/test.csv"

/-- The six `(name, path)` pairs checked by `check_files_exist`. -/
def fileEntries (l : DataLoader) : List (String × String) :=
  [("book_train", l.book_train_path),
   ("book_test", l.book_test_path),
   ("trade_train", l.trade_train_path),
   ("trade_test", l.trade_test_path),
   ("train_csv", l.train_csv_path),
   ("test_csv", l.test_csv_path)]

/-- The dictionary `files_status` built by `check_files_exist`. -/
def files_status (l : DataLoader) (fs : FS) : List (String × Bool) :=
  (fileEntries l).map (fun p => (p.1, (fs p.2).isSome))

/-- Model of `DataLoader.check_files_exist`: report (and print) existence of the six
configured paths; never raises. -/
def check_files_exist (l : DataLoader) (fs : FS) : Res (List (String × Bool)) :=
  .ok ((fileEntries l).map (fun p => Msg.fileStatus p.1 (fs p.2).isSome p.2))
      (files_status l fs)

/-- Model of `DataLoader.explore_parquet_structure` (the spec's `inspectSchema`).
Missing path: one message, returns `None`. Readable file: prints metadata and
returns the handle (modelled by the parsed table). Unreadable file: the
`except` block prints the error, but the trailing `return parquet_file` then
references a local that was never bound, so an `UnboundLocalError` propagates
to the caller. -/
def explore_parquet_structure (fs : FS) (path : String) : Res (Option Table) :=
  match fs path with
  | none => .ok [.fileNotFound path] none
  | some (.table t) => .ok [.structureHeader path, .metadataInfo] (some t)
  | some .corrupt => .exn [.structureHeader path, .metadataError] "UnboundLocalError"

/-- Path selection of `load_sample_data`: `none` on an invalid
`file_type`/`split` combination (where the source raises `ValueError`). -/
def sample_path (l : DataLoader) (file_type split : String) : Option String :=
  if file_type == "book" && split == "train" then some l.book_train_path
  else if file_type == "book" && split == "test" then some l.book_test_path
  else if file_type == "trade" && split == "train" then some l.trade_train_path
  else if file_type == "trade" && split == "test" then some l.trade_test_path
  else none

/-- Reading `pd.read_parquet` / `pd.read_csv` without truncation: the full table of
an existing, readable file. -/
def load_full (fs : FS) (path : String) : Option Table :=
  match fs path with
  | some (.table t) => some t
  | _ => none

/-- Model of `DataLoader.load_sample_data` (the spec's `loadSample`): select the file
by kind and split (raising `ValueError` on an invalid combination), return
`None` with a message when it is absent, otherwise load it — a read error is
caught, printed and turned into `None` — and truncate with `df.head(nrows)`
when the table has more than `nrows` rows. -/
def load_sample_data (l : DataLoader) (fs : FS) (file_type split : String)
    (nrows : Nat) : Res (Option Table) :=
  match sample_path l file_type split with
  | none => .exn [] "ValueError"
  | some path =>
    match fs path with
    | none => .ok [.fileNotFound path] none
    | some .corrupt => .ok [.loadingHeader path, .loadError] none
    | some (.table t) =>
      if t.rows.length > nrows then
        .ok [.loadingHeader path, .sampleLoaded nrows]
            (some { cols := t.cols, rows := t.rows.take nrows })
      else
        .ok [.loadingHeader path, .allLoaded t.rows.length] (some t)

/-- Model of `DataLoader.load_train_targets` (the spec's `loadTargets`): `None` with a
message when `train.csv` is absent; otherwise `pd.read_csv` runs with no
`try`/`except`, so a read error propagates to the caller. -/
def load_train_targets (l : DataLoader) (fs : FS) : Res (Option Table) :=
  match fs l.train_csv_path with
  | none => .ok [.fileNotFound l.train_csv_path] none
  | some .corrupt => .exn [] "ParserError"
  | some (.table t) => .ok [.targetsHeader, .targetsShape t.rows.length t.cols.length] (some t)

/-- Model of `DataLoader.basic_exploration` (the spec's `summarize`): on `None`,
return immediately with no output; otherwise print shape, columns, dtypes,
head, missing counts and `df.describe()` — which raises `ValueError` on a
frame without columns — plus the guarded dataset-specific lines. -/
def basic_exploration (df : Option Table) (data_name : String) : Res Unit :=
  match df with
  | none => .ok [] ()
  | some t =>
    if t.cols.isEmpty then
      .exn [.explorationHeader data_name, .shapeMsg t.rows.length t.cols.length,
            .columnsMsg t.cols, .dtypesMsg, .headMsg, .missingMsg] "ValueError"
    else
      .ok ([.explorationHeader data_name, .shapeMsg t.rows.length t.cols.length,
            .columnsMsg t.cols, .dtypesMsg, .headMsg, .missingMsg, .describeMsg]
           ++ (if t.hasCol "stock_id" then [.stockMsg (t.nunique "stock_id")] else [])
           ++ (if t.hasCol "time_id" then [.timeMsg (t.nunique "time_id")] else [])
           ++ (if t.hasCol "seconds_in_bucket" then [.secondsMsg] else [])) ()

/-! ## Visualizer (`visualize_data.py`) -/

/-- Outcome of one plotting function: printed messages, whether a figure was
created (`plt.subplots` ran), and an exception if one propagates. -/
structure VizOut where
  out : List Msg
  rendered : Bool
  exn : Option String
deriving DecidableEq

/-- Model of `plot_target_distribution`: one notice and no figure when the input is
`None` or the `target` column is absent; otherwise a figure is created and
the panels are drawn — the box-plot needs `stock_id` and the statistics text
needs `time_id`, each raising `KeyError` when absent. -/
def plot_target_distribution (targets : Option Table) : VizOut :=
  match targets with
  | none => ⟨[.noTargetsMsg], false, none⟩
  | some t =>
    if !t.hasCol "target" then ⟨[.noTargetsMsg], false, none⟩
    else if !t.hasCol "stock_id" then ⟨[], true, some "KeyError"⟩
    else if !t.hasCol "time_id" then ⟨[], true, some "KeyError"⟩
    else ⟨[], true, none⟩

/-- The series `book_df['ask_price1'] - book_df['bid_price1']`. -/
def spreadSeries (t : Table) : List Val :=
  List.zipWith (fun a b => a - b) (t.getCol "ask_price1") (t.getCol "bid_price1")

/-- Model of `plot_book_analysis`: notice on `None`; otherwise the figure is created,
then `book_df['spread_1'] = ask_price1 - bid_price1` mutates the caller's
frame (raising `KeyError` first when either price column is absent), and the
panels run in source order: the price-evolution panel (guarded on `stock_id`
being present and nonempty) reads `seconds_in_bucket`, the size scatter
reads `bid_size1`/`ask_size1`, the seconds histogram reads
`seconds_in_bucket`; the correlation panel and the per-`time_id` panel are
guarded. The returned table is the caller's frame after the call. -/
def plot_book_analysis (book : Option Table) : VizOut × Option Table :=
  match book with
  | none => (⟨[.noBookMsg], false, none⟩, none)
  | some t =>
    if !(t.hasCol "ask_price1" && t.hasCol "bid_price1") then
      (⟨[], true, some "KeyError"⟩, some t)
    else
      let t' := t.setCol "spread_1" (spreadSeries t)
      if t'.hasCol "stock_id" && decide (0 < t'.nunique "stock_id")
          && !t'.hasCol "seconds_in_bucket" then
        (⟨[], true, some "KeyError"⟩, some t')
      else if !(t'.hasCol "bid_size1" && t'.hasCol "ask_size1") then
        (⟨[], true, some "KeyError"⟩, some t')
      else if !t'.hasCol "seconds_in_bucket" then
        (⟨[], true, some "KeyError"⟩, some t')
      else
        (⟨[], true, none⟩, some t')

/-- Model of `plot_trade_analysis`: notice on `None`; otherwise the figure is created
and the panels read `size`, `order_count`, `price` in source order (each a
`KeyError` when absent); the per-stock panel is guarded on `stock_id` being
present and nonempty but then reads `seconds_in_bucket` unguarded. -/
def plot_trade_analysis (trade : Option Table) : VizOut :=
  match trade with
  | none => ⟨[.noTradeMsg], false, none⟩
  | some t =>
    if !t.hasCol "size" then ⟨[], true, some "KeyError"⟩
    else if !t.hasCol "order_count" then ⟨[], true, some "KeyError"⟩
    else if !t.hasCol "price" then ⟨[], true, some "KeyError"⟩
    else if t.hasCol "stock_id" && decide (0 < t.nunique "stock_id")
        && !t.hasCol "seconds_in_bucket" then ⟨[], true, some "KeyError"⟩
    else ⟨[], true, none⟩

/-- The target block of `generate_summary_report`. -/
structure TargetStats where
  nObs : Nat
  nStocks : Nat
  nTimes : Nat
  meanTarget : Val
  medianTarget : Val
  varTarget : Val
deriving DecidableEq

/-- The book block of `generate_summary_report` (`spreadMean` is the mean of
`ask_price1 - bid_price1`). -/
structure BookStats where
  nObs : Nat
  nStocks : Nat
  maxSeconds : Val
  spreadMean : Val
deriving DecidableEq

/-- The trade block of `generate_summary_report`. -/
structure TradeStats where
  nObs : Nat
  nStocks : Nat
  meanSize : Val
  totalVolume : Val
  meanOrders : Val
deriving DecidableEq

/-- Everything `generate_summary_report` prints, as structured data. -/
structure Report where
  bookAvail : Bool
  tradeAvail : Bool
  targetAvail : Bool
  targetStats : Option TargetStats
  bookStats : Option BookStats
  tradeStats : Option TradeStats
deriving DecidableEq

instance {ε α : Type} [DecidableEq ε] [DecidableEq α] : DecidableEq (Except ε α) := fun x y =>
  match x, y with
  | .ok a, .ok b => if h : a = b then isTrue (by rw [h]) else isFalse (by simp [h])
  | .error a, .error b => if h : a = b then isTrue (by rw [h]) else isFalse (by simp [h])
  | .ok _, .error _ => isFalse (by simp)
  | .error _, .ok _ => isFalse (by simp)

/-- The target section: accesses `stock_id`, `time_id`, `target` in source
order, raising `KeyError` when one is absent. -/
def targetSection (t : Table) : Except String TargetStats :=
  if !t.hasCol "stock_id" then .error "KeyError"
  else if !t.hasCol "time_id" then .error "KeyError"
  else if !t.hasCol "target" then .error "KeyError"
  else .ok ⟨t.rows.length, t.nunique "stock_id", t.nunique "time_id",
            meanL (t.getCol "target"), medianL (t.getCol "target"),
            varL (t.getCol "target")⟩

/-- The book section: accesses `stock_id`, `seconds_in_bucket`,
`ask_price1`, `bid_price1` in source order. -/
def bookSection (t : Table) : Except String BookStats :=
  if !t.hasCol "stock_id" then .error "KeyError"
  else if !t.hasCol "seconds_in_bucket" then .error "KeyError"
  else if !(t.hasCol "ask_price1" && t.hasCol "bid_price1") then .error "KeyError"
  else .ok ⟨t.rows.length, t.nunique "stock_id",
            maxL (t.getCol "seconds_in_bucket"), meanL (spreadSeries t)⟩

/-- The trade section: accesses `stock_id`, `size`, `order_count` in source
order. -/
def tradeSection (t : Table) : Except String TradeStats :=
  if !t.hasCol "stock_id" then .error "KeyError"
  else if !t.hasCol "size" then .error "KeyError"
  else if !t.hasCol "order_count" then .error "KeyError"
  else .ok ⟨t.rows.length, t.nunique "stock_id", meanL (t.getCol "size"),
            sumL (t.getCol "size"), meanL (t.getCol "order_count")⟩

/-- Model of `generate_summary_report`: availability flags, then the target, book and
trade sections in that order, each skipped when its table is `None`; an
unguarded column access inside a section raises and aborts the rest. -/
def generate_summary_report (book trade target : Option Table) :
    Except String Report := do
  let ts ← match target with
    | none => pure none
    | some t => (targetSection t).map some
  let bs ← match book with
    | none => pure none
    | some t => (bookSection t).map some
  let rs ← match trade with
    | none => pure none
    | some t => (tradeSection t).map some
  pure ⟨book.isSome, trade.isSome, target.isSome, ts, bs, rs⟩

/-! ## Concrete instances used by the witnesses and counterexamples -/

/-- A loader with the default root directory. -/
def dl0 : DataLoader := ⟨"./raw_data"⟩

/-- A filesystem with no files. -/
def emptyFS : FS := fun _ => none

/-- The target table of the spec's synthesis-report example. -/
def exTargets : Table :=
  ⟨["stock_id", "time_id", "target"],
   [[1, 1, 1/100], [1, 2, 1/50], [2, 1, 3/100]]⟩

/-- The one-row book table of the spec's spread example
(`bid_price1 = 100`, `ask_price1 = 100.5`). -/
def exBook : Table := ⟨["bid_price1", "ask_price1"], [[100, 201/2]]⟩

/-- A target table with the expected columns but no rows. -/
def emptyTargets : Table := ⟨["stock_id", "time_id", "target"], []⟩

/-- A book table lacking the expected `ask_price1` column. -/
def exBookNoAsk : Table := ⟨["bid_price1"], [[100]]⟩

/-- A book table with every unguarded column present but no `stock_id` and no
`time_id` column. -/
def exBookNoStock : Table :=
  ⟨["seconds_in_bucket", "bid_price1", "ask_price1", "bid_size1", "ask_size1"],
   [[5, 100, 201/2, 10, 20]]⟩

/-- A two-row sample file. -/
def exSample : Table := ⟨["stock_id", "seconds_in_bucket"], [[0, 1], [0, 2]]⟩

/-- A filesystem holding only `book_train.parquet` (readable, two rows). -/
def bookFS : FS := fun p => if p == dl0.book_train_path then some (.table exSample) else none

/-! ## Helper lemmas about the table model -/

theorem contains_append_eq (l₁ l₂ : List String) (a : String) :
    (l₁ ++ l₂).contains a = (l₁.contains a || l₂.contains a) := by
  induction l₁ with
  | nil => simp
  | cons b bs ih => simp [List.contains_cons, ih, Bool.or_assoc]

theorem hasCol_iff_mem (t : Table) (c : String) : t.hasCol c = true ↔ c ∈ t.cols := by
  simp [Table.hasCol]

theorem idxOf?_append_self (c : String) (cs : List String) (h : c ∉ cs) :
    idxOf? c (cs ++ [c]) = some cs.length := by
  induction cs with
  | nil => simp [idxOf?]
  | cons a as ih =>
    simp only [List.mem_cons, not_or] at h
    have ha : (a == c) = false := by
      simp only [beq_eq_false_iff_ne]
      exact fun e => h.1 e.symm
    simp [idxOf?, ha, ih h.2]

theorem idxOf?_of_mem (c : String) (cs : List String) (h : c ∈ cs) :
    ∃ i, idxOf? c cs = some i ∧ i < cs.length := by
  induction cs with
  | nil => cases h
  | cons a as ih =>
    by_cases hac : (a == c) = true
    · exact ⟨0, by simp [idxOf?, hac], by simp⟩
    · have hmem : c ∈ as := by
        rcases List.mem_cons.mp h with h1 | h1
        · exact absurd (beq_iff_eq.mpr h1.symm) hac
        · exact h1
      obtain ⟨i, hi, hlt⟩ := ih hmem
      exact ⟨i + 1, by simp [idxOf?, hac, hi], by simpa using Nat.succ_lt_succ hlt⟩

theorem idxOf?_append_left (c : String) (cs ds : List String) (h : c ∈ cs) :
    idxOf? c (cs ++ ds) = idxOf? c cs := by
  induction cs with
  | nil => cases h
  | cons a as ih =>
    by_cases hac : (a == c) = true
    · simp [idxOf?, hac]
    · have hmem : c ∈ as := by
        rcases List.mem_cons.mp h with h1 | h1
        · exact absurd (beq_iff_eq.mpr h1.symm) hac
        · exact h1
      simp [idxOf?, hac, ih hmem]

theorem getCol_eq_of_idx (t : Table) (c : String) (i : Nat) (h : t.colIdx c = some i) :
    t.getCol c = t.rows.map (fun r => r.getD i 0) := by
  unfold Table.getCol
  rw [h]

theorem getCol_length_of_mem (t : Table) (c : String) (h : c ∈ t.cols) :
    (t.getCol c).length = t.rows.length := by
  obtain ⟨i, hi, _⟩ := idxOf?_of_mem c t.cols h
  rw [getCol_eq_of_idx t c i hi, List.length_map]

theorem setCol_new_eq (t : Table) (c : String) (vs : List Val)
    (hc : c ∉ t.cols) :
    t.setCol c vs = ⟨t.cols ++ [c], (t.rows.zip vs).map (fun p => p.1 ++ [p.2])⟩ := by
  have hcontains : t.cols.contains c = false := by simpa using hc
  unfold Table.setCol
  rw [if_neg (by rw [hcontains]; exact Bool.false_ne_true)]

theorem getCol_setCol_self (t : Table) (c : String) (vs : List Val)
    (hwf : t.WF) (hc : c ∉ t.cols) (hlen : vs.length = t.rows.length) :
    (t.setCol c vs).getCol c = vs := by
  have hidx : (t.setCol c vs).colIdx c = some t.cols.length := by
    rw [setCol_new_eq t c vs hc]
    exact idxOf?_append_self c t.cols hc
  rw [getCol_eq_of_idx _ c _ hidx, setCol_new_eq t c vs hc]
  rw [List.map_map]
  have key : ∀ p ∈ t.rows.zip vs,
      ((fun r => r.getD t.cols.length 0) ∘ (fun p => p.1 ++ [p.2])) p = p.2 := by
    intro p hp
    have h1 : p.1 ∈ t.rows := (List.of_mem_zip hp).1
    have h2 : p.1.length = t.cols.length := hwf.1 p.1 h1
    simp only [Function.comp]
    rw [List.getD_eq_getElem?_getD, ← h2, List.getElem?_append_right (Nat.le_refl _)]
    simp
  rw [List.map_congr_left key]
  have h3 := List.map_snd_zip t.rows vs (le_of_eq hlen)
  simpa using h3

theorem getCol_setCol_other (t : Table) (c c' : String) (vs : List Val)
    (hwf : t.WF) (hc : c ∉ t.cols) (hc' : c' ∈ t.cols)
    (hlen : vs.length = t.rows.length) :
    (t.setCol c vs).getCol c' = t.getCol c' := by
  obtain ⟨i, hi, hilt⟩ := idxOf?_of_mem c' t.cols hc'
  have hidx : (t.setCol c vs).colIdx c' = some i := by
    rw [setCol_new_eq t c vs hc]
    show idxOf? c' (t.cols ++ [c]) = some i
    rw [idxOf?_append_left c' t.cols [c] hc', hi]
  rw [getCol_eq_of_idx _ c' _ hidx, getCol_eq_of_idx t c' i hi, setCol_new_eq t c vs hc]
  rw [List.map_map]
  have key : ∀ p ∈ t.rows.zip vs,
      ((fun r => r.getD i 0) ∘ (fun p => p.1 ++ [p.2])) p = p.1.getD i 0 := by
    intro p hp
    have h1 : p.1 ∈ t.rows := (List.of_mem_zip hp).1
    have h2 : p.1.length = t.cols.length := hwf.1 p.1 h1
    simp only [Function.comp]
    rw [List.getD_eq_getElem?_getD, List.getD_eq_getElem?_getD,
        List.getElem?_append_left (by rw [h2]; exact hilt)]
  rw [List.map_congr_left key]
  have comp2 : (t.rows.zip vs).map (fun p => p.1.getD i 0)
      = ((t.rows.zip vs).map Prod.fst).map (fun r => r.getD i 0) := by
    rw [List.map_map]
    rfl
  rw [comp2, List.map_fst_zip t.rows vs (le_of_eq hlen.symm)]

theorem hasCol_setCol (t : Table) (c c' : String) (vs : List Val) :
    (t.setCol c vs).hasCol c' = (t.hasCol c' || c' == c) := by
  unfold Table.setCol
  by_cases h : t.cols.contains c = true
  · rw [if_pos h]
    simp only [Table.hasCol]
    by_cases hcc : (c' == c) = true
    · have hm : c' = c := eq_of_beq hcc
      rw [hcc, Bool.or_true, hm, h]
    · rw [Bool.not_eq_true] at hcc
      rw [hcc, Bool.or_false]
  · rw [if_neg h]
    simp only [Table.hasCol]
    rw [contains_append_eq]
    simp only [List.contains_cons]
    rw [List.contains_nil, Bool.or_false]

theorem spreadSeries_length (t : Table) (ha : "ask_price1" ∈ t.cols)
    (hb : "bid_price1" ∈ t.cols) :
    (spreadSeries t).length = t.rows.length := by
  simp [spreadSeries, List.length_zipWith, getCol_length_of_mem t _ ha,
        getCol_length_of_mem t _ hb]

theorem getD_zipWith_sub (xs ys : List Val) (h : xs.length = ys.length) (i : Nat) :
    (List.zipWith (fun a b => a - b) xs ys).getD i 0 = xs.getD i 0 - ys.getD i 0 := by
  induction xs generalizing ys i with
  | nil =>
    cases ys with
    | nil => simp
    | cons y ys => simp at h
  | cons x xs ih =>
    cases ys with
    | nil => simp at h
    | cons y ys =>
      cases i with
      | zero => simp
      | succ n => simpa using ih ys (by simpa using h) n

theorem plot_book_snd (t : Table) (ha : t.hasCol "ask_price1" = true)
    (hb : t.hasCol "bid_price1" = true) :
    (plot_book_analysis (some t)).2 = some (t.setCol "spread_1" (spreadSeries t)) := by
  simp only [plot_book_analysis]
  rw [ha, hb]
  simp only [Bool.and_self, Bool.not_true, Bool.false_eq_true, if_false]
  split
  · rfl
  split
  · rfl
  split <;> rfl

/-! ## Claims -/

/-- C10: on a null/absent table, `basic_exploration` returns immediately,
printing nothing and raising nothing, whatever the label; the absent table
is silently tolerated. -/
theorem claim10_basic_exploration_none (data_name : String) :
    basic_exploration none data_name = .ok [] () := rfl

/-- Witness for C10 at a concrete label. -/
theorem claim10_witness : basic_exploration none "Book Train Sample" = .ok [] () :=
  claim10_basic_exploration_none "Book Train Sample"

/-- C9: for each of the six configured name/path pairs, `check_files_exist`
reports `true` for that name exactly when the path exists in the filesystem
at call time. -/
theorem claim9_check_files_exist (l : DataLoader) (fs : FS) (name path : String)
    (h : (name, path) ∈ fileEntries l) :
    check_files_exist l fs =
      .ok ((fileEntries l).map (fun p => Msg.fileStatus p.1 (fs p.2).isSome p.2))
          (files_status l fs) ∧
    (files_status l fs).lookup name = some (fs path).isSome := by
  refine ⟨rfl, ?_⟩
  simp only [fileEntries, List.mem_cons, List.not_mem_nil, or_false, Prod.mk.injEq] at h
  rcases h with ⟨rfl, rfl⟩ | ⟨rfl, rfl⟩ | ⟨rfl, rfl⟩ | ⟨rfl, rfl⟩ | ⟨rfl, rfl⟩ | ⟨rfl, rfl⟩ <;> rfl

/-- Witness for C9 at a concrete loader, filesystem and entry. -/
theorem claim9_witness :
    check_files_exist dl0 emptyFS =
      .ok ((fileEntries dl0).map (fun p => Msg.fileStatus p.1 (emptyFS p.2).isSome p.2))
          (files_status dl0 emptyFS) ∧
    (files_status dl0 emptyFS).lookup "train_csv" = some (emptyFS dl0.train_csv_path).isSome :=
  claim9_check_files_exist dl0 emptyFS "train_csv" dl0.train_csv_path (by decide)

/-- C2: for a valid kind/split and a positive bound `n`, when the selected
file exists and loads as table `t`, `load_sample_data` returns `t` truncated
to its first `n` rows (all rows when there are at most `n`), hence never
more than `n` rows. -/
theorem claim2_load_sample_truncates (l : DataLoader) (fs : FS)
    (file_type split : String) (n : Nat) (p : String) (t : Table)
    (hp : sample_path l file_type split = some p)
    (hfs : fs p = some (.table t)) (hn : 0 < n) :
    ∃ out u, load_sample_data l fs file_type split n = .ok out (some u) ∧
      u.cols = t.cols ∧ u.rows = t.rows.take n ∧ u.rows.length ≤ n := by
  unfold load_sample_data
  rw [hp]
  dsimp only
  rw [hfs]
  dsimp only
  by_cases h : t.rows.length > n
  · rw [if_pos h]
    exact ⟨_, _, rfl, rfl, rfl, t.rows.length_take_le n⟩
  · rw [if_neg h]
    push_neg at h
    exact ⟨_, _, rfl, rfl, (List.take_of_length_le h).symm, h⟩

/-- Witness for C2: a two-row file truncated to one row. -/
theorem claim2_witness :
    ∃ out u, load_sample_data dl0 bookFS "book" "train" 1 = .ok out (some u) ∧
      u.cols = exSample.cols ∧ u.rows = exSample.rows.take 1 ∧ u.rows.length ≤ 1 :=
  claim2_load_sample_truncates dl0 bookFS "book" "train" 1 dl0.book_train_path exSample
    (by decide) (by decide) (by decide)

/-- C6: round-trip — when the selected file exists, loads as `t`, and the
bound `n` is at least the total row count, `load_sample_data` returns
exactly the table obtained by loading the file without truncation. -/
theorem claim6_roundtrip (l : DataLoader) (fs : FS)
    (file_type split : String) (n : Nat) (p : String) (t : Table)
    (hp : sample_path l file_type split = some p)
    (hfs : fs p = some (.table t)) (hn : t.rows.length ≤ n) :
    load_full fs p = some t ∧
    ∃ out, load_sample_data l fs file_type split n = .ok out (load_full fs p) := by
  have hfull : load_full fs p = some t := by simp [load_full, hfs]
  refine ⟨hfull, ?_⟩
  unfold load_sample_data
  rw [hp]
  dsimp only
  rw [hfs]
  dsimp only
  rw [if_neg (by omega), hfull]
  exact ⟨_, rfl⟩

/-- Witness for C6: a two-row file loaded with bound `5`. -/
theorem claim6_witness :
    load_full bookFS dl0.book_train_path = some exSample ∧
    ∃ out, load_sample_data dl0 bookFS "book" "train" 5 =
      .ok out (load_full bookFS dl0.book_train_path) :=
  claim6_roundtrip dl0 bookFS "book" "train" 5 dl0.book_train_path exSample
    (by decide) (by decide) (by decide)

/-- C8: on the spec's three-row example target table the synthesis report
shows 3 observations, 2 distinct stocks, 2 distinct time buckets, and mean
target `1/50` (= 0.02). -/
theorem claim8_summary_report_example :
    generate_summary_report none none (some exTargets) =
      .ok ⟨false, false, true, some ⟨3, 2, 2, 1/50, 1/50, 1/10000⟩, none, none⟩ := by
  simp [generate_summary_report, targetSection, exTargets, Table.hasCol, Table.nunique,
        Table.getCol, Table.colIdx, idxOf?, nuniqueL, meanL, medianL, varL, List.dedup,
        List.insertionSort, List.orderedInsert, Except.map, Functor.map,
        Except.bind, bind, pure, Except.pure]
  norm_num

/-- C1 fails as stated: `load_sample_data` deliberately raises `ValueError`
on an invalid kind/split argument, so an exception propagates to the
caller. -/
theorem claim1_counterexample :
    load_sample_data dl0 emptyFS "volume" "train" 10000 = .exn [] "ValueError" := by
  decide

/-- C1 corrected: `check_files_exist` never raises, and `load_sample_data`
with a valid kind/split never raises whatever the filesystem state;
`explore_parquet_structure` and `load_train_targets` are exception-free when
their file is absent or readable; but `load_sample_data` raises `ValueError`
on an invalid kind/split, `explore_parquet_structure` raises (an unbound
local after the swallowed read error) when an existing file fails to read,
and `load_train_targets` propagates a read error of an existing
`train.csv`. -/
theorem claim1_amended :
    (∀ (l : DataLoader) (fs : FS), (check_files_exist l fs).isOk = true) ∧
    (∀ (l : DataLoader) (fs : FS) (file_type split : String) (n : Nat) (p : String),
      sample_path l file_type split = some p →
      (load_sample_data l fs file_type split n).isOk = true) ∧
    (∀ (fs : FS) (p : String), fs p ≠ some .corrupt →
      (explore_parquet_structure fs p).isOk = true) ∧
    (∀ (l : DataLoader) (fs : FS), fs l.train_csv_path ≠ some .corrupt →
      (load_train_targets l fs).isOk = true) ∧
    (∀ (l : DataLoader) (fs : FS) (file_type split : String) (n : Nat),
      sample_path l file_type split = none →
      load_sample_data l fs file_type split n = .exn [] "ValueError") ∧
    (∀ (fs : FS) (p : String), fs p = some .corrupt →
      (explore_parquet_structure fs p).isOk = false) ∧
    (∀ (l : DataLoader) (fs : FS), fs l.train_csv_path = some .corrupt →
      (load_train_targets l fs).isOk = false) := by
  refine ⟨fun l fs => rfl, ?_, ?_, ?_, ?_, ?_, ?_⟩
  · intro l fs ft sp n p hp
    unfold load_sample_data
    rw [hp]
    dsimp only
    cases hfs : fs p with
    | none => rfl
    | some c =>
      cases c with
      | table t =>
        dsimp only
        split <;> rfl
      | corrupt => rfl
  · intro fs p hne
    unfold explore_parquet_structure
    cases hfs : fs p with
    | none => rfl
    | some c =>
      cases c with
      | table t => rfl
      | corrupt => exact absurd hfs hne
  · intro l fs hne
    unfold load_train_targets
    cases hfs : fs l.train_csv_path with
    | none => rfl
    | some c =>
      cases c with
      | table t => rfl
      | corrupt => exact absurd hfs hne
  · intro l fs ft sp n hp
    unfold load_sample_data
    rw [hp]
  · intro fs p hfs
    unfold explore_parquet_structure
    rw [hfs]
    rfl
  · intro l fs hfs
    unfold load_train_targets
    rw [hfs]
    rfl

/-- Witness for C1 amended at concrete loaders and filesystems. -/
theorem claim1_witness :
    (load_sample_data dl0 emptyFS "book" "train" 5).isOk = true ∧
    (explore_parquet_structure emptyFS "x").isOk = true ∧
    (load_train_targets dl0 emptyFS).isOk = true :=
  ⟨claim1_amended.2.1 dl0 emptyFS "book" "train" 5 dl0.book_train_path (by decide),
   claim1_amended.2.2.1 emptyFS "x" (by decide),
   claim1_amended.2.2.2.1 dl0 emptyFS (by decide)⟩

/-- C5 fails as stated: on an empty target table that still has its `target`
column, `plot_target_distribution` renders the panel and emits no notice at
all. -/
theorem claim5_counterexample :
    (plot_target_distribution (some emptyTargets)).rendered = true ∧
    (plot_target_distribution (some emptyTargets)).out = [] :=
  ⟨rfl, rfl⟩

/-- C5 corrected: for a target table that is absent or lacks the `target`
column, `plot_target_distribution` performs no rendering and emits exactly
one console notice (an empty table that still has the column is rendered
instead). -/
theorem claim5_amended (ot : Option Table)
    (h : ot.all (fun t => !t.hasCol "target") = true) :
    plot_target_distribution ot = ⟨[Msg.noTargetsMsg], false, none⟩ := by
  cases ot with
  | none => rfl
  | some t =>
    have ht : t.hasCol "target" = false := by simpa [Option.all] using h
    unfold plot_target_distribution
    dsimp only
    rw [ht]
    rfl

/-- Witness for C5 amended at a concrete table without the target column. -/
theorem claim5_witness :
    plot_target_distribution (some ⟨["stock_id"], []⟩) = ⟨[Msg.noTargetsMsg], false, none⟩ :=
  claim5_amended (some ⟨["stock_id"], []⟩) (by decide)

/-- C3 fails as stated: `plot_book_analysis` mutates the book table it
receives — after the call the spec-example table carries an extra
`spread_1` column. -/
theorem claim3_counterexample :
    (plot_book_analysis (some exBook)).2 ≠ some exBook := by
  decide

/-- C3 corrected: the summary and plot operations leave their input tables
unchanged except `plot_book_analysis`, which appends a `spread_1` column to
a present book table: the original columns keep exactly their values, but
the table itself is changed. -/
theorem claim3_amended (t : Table) (hwf : t.WF)
    (ha : t.hasCol "ask_price1" = true) (hb : t.hasCol "bid_price1" = true)
    (hs : t.hasCol "spread_1" = false) :
    ∃ u, (plot_book_analysis (some t)).2 = some u ∧
      u.cols = t.cols ++ ["spread_1"] ∧
      (∀ c, c ∈ t.cols → u.getCol c = t.getCol c) ∧
      u ≠ t := by
  have hsmem : "spread_1" ∉ t.cols := by
    intro hmem
    rw [(hasCol_iff_mem t "spread_1").mpr hmem] at hs
    cases hs
  have hlen : (spreadSeries t).length = t.rows.length :=
    spreadSeries_length t ((hasCol_iff_mem t _).mp ha) ((hasCol_iff_mem t _).mp hb)
  refine ⟨t.setCol "spread_1" (spreadSeries t), plot_book_snd t ha hb, ?_, ?_, ?_⟩
  · rw [setCol_new_eq t _ _ hsmem]
  · intro c hc
    exact getCol_setCol_other t "spread_1" c (spreadSeries t) hwf hsmem hc hlen
  · intro he
    have hcols : (t.setCol "spread_1" (spreadSeries t)).cols = t.cols := by rw [he]
    rw [setCol_new_eq t _ _ hsmem] at hcols
    dsimp only at hcols
    have hlen2 := congrArg List.length hcols
    simp only [List.length_append, List.length_singleton] at hlen2
    omega

/-- Witness for C3 amended at the spec-example book table. -/
theorem claim3_witness :
    ∃ u, (plot_book_analysis (some exBook)).2 = some u ∧
      u.cols = exBook.cols ++ ["spread_1"] ∧
      (∀ c, c ∈ exBook.cols → u.getCol c = exBook.getCol c) ∧
      u ≠ exBook :=
  claim3_amended exBook ⟨by decide, by decide⟩ (by decide) (by decide) (by decide)

/-- C7: the level-1 spread derived by `plot_book_analysis` (the `spread_1`
column written into the book table) equals `ask_price1 - bid_price1` row by
row; in particular, on the one-row example with `bid_price1 = 100` and
`ask_price1 = 100.5` the computed spread is `1/2`. -/
theorem claim7_spread :
    (∀ t : Table, t.WF → t.hasCol "ask_price1" = true → t.hasCol "bid_price1" = true →
      t.hasCol "spread_1" = false →
      ∃ u, (plot_book_analysis (some t)).2 = some u ∧
        ∀ i, (u.getCol "spread_1").getD i 0 =
          (t.getCol "ask_price1").getD i 0 - (t.getCol "bid_price1").getD i 0) ∧
    (plot_book_analysis (some exBook)).2.map (fun u => u.getCol "spread_1") =
      some [(1 : ℚ)/2] := by
  constructor
  · intro t hwf ha hb hs
    have hsmem : "spread_1" ∉ t.cols := by
      intro hmem
      rw [(hasCol_iff_mem t "spread_1").mpr hmem] at hs
      cases hs
    have hamem : "ask_price1" ∈ t.cols := (hasCol_iff_mem t _).mp ha
    have hbmem : "bid_price1" ∈ t.cols := (hasCol_iff_mem t _).mp hb
    have hlen : (spreadSeries t).length = t.rows.length :=
      spreadSeries_length t hamem hbmem
    refine ⟨t.setCol "spread_1" (spreadSeries t), plot_book_snd t ha hb, ?_⟩
    intro i
    rw [getCol_setCol_self t "spread_1" (spreadSeries t) hwf hsmem hlen]
    exact getD_zipWith_sub _ _
      (by rw [getCol_length_of_mem t _ hamem, getCol_length_of_mem t _ hbmem]) i
  · simp [plot_book_analysis, exBook, Table.hasCol, Table.setCol, spreadSeries,
          Table.getCol, Table.colIdx, idxOf?, Table.nunique, nuniqueL]
    norm_num

/-- Witness for C7 at the spec-example book table. -/
theorem claim7_witness :
    ∃ u, (plot_book_analysis (some exBook)).2 = some u ∧
      ∀ i, (u.getCol "spread_1").getD i 0 =
        (exBook.getCol "ask_price1").getD i 0 - (exBook.getCol "bid_price1").getD i 0 :=
  claim7_spread.1 exBook ⟨by decide, by decide⟩ (by decide) (by decide) (by decide)

/-- C4 fails as stated: a present book table lacking `ask_price1` makes
`plot_book_analysis` raise a `KeyError` — fatal, with no skip and no console
notice. -/
theorem claim4_counterexample :
    (plot_book_analysis (some exBookNoAsk)).1 = ⟨[], true, some "KeyError"⟩ := by
  decide

/-- C4 corrected: only the per-stock, price-correlation and per-time-bucket
panels are guarded against missing columns, and those are skipped silently,
with no console notice; a present table lacking a column that is accessed
unguardedly (for example `ask_price1` in book, `size` in trade, `stock_id`
in the report's target section) raises a fatal `KeyError`. -/
theorem claim4_amended :
    (∀ t : Table, t.hasCol "ask_price1" = false →
      (plot_book_analysis (some t)).1 = ⟨[], true, some "KeyError"⟩) ∧
    (∀ t : Table, t.hasCol "size" = false →
      plot_trade_analysis (some t) = ⟨[], true, some "KeyError"⟩) ∧
    (∀ t : Table, t.hasCol "stock_id" = false →
      generate_summary_report none none (some t) = .error "KeyError") ∧
    (∀ t : Table, t.WF → t.hasCol "ask_price1" = true → t.hasCol "bid_price1" = true →
      t.hasCol "bid_size1" = true → t.hasCol "ask_size1" = true →
      t.hasCol "seconds_in_bucket" = true → t.hasCol "spread_1" = false →
      t.hasCol "stock_id" = false →
      (plot_book_analysis (some t)).1 = ⟨[], true, none⟩) ∧
    (∀ t : Table, t.hasCol "size" = true → t.hasCol "order_count" = true →
      t.hasCol "price" = true → t.hasCol "stock_id" = false →
      plot_trade_analysis (some t) = ⟨[], true, none⟩) := by
  refine ⟨?_, ?_, ?_, ?_, ?_⟩
  · intro t h
    simp [plot_book_analysis, h]
  · intro t h
    simp [plot_trade_analysis, h]
  · intro t h
    simp [generate_summary_report, targetSection, h, Except.map, Functor.map,
          Except.bind, bind, pure, Except.pure]
  · intro t hwf ha hb hbs has hsec hs hstock
    simp only [plot_book_analysis]
    rw [ha, hb]
    simp only [Bool.and_self, Bool.not_true, Bool.false_eq_true, if_false]
    simp only [hasCol_setCol, hbs, has, hsec, hstock]
    simp
  · intro t hsize horder hprice hstock
    simp [plot_trade_analysis, hsize, horder, hprice, hstock]

/-- Witness for C4 amended: the silent, notice-free skip of the guarded
panels on a book table with no `stock_id` column. -/
theorem claim4_witness :
    (plot_book_analysis (some exBookNoStock)).1 = ⟨[], true, none⟩ :=
  claim4_amended.2.2.2.1 exBookNoStock ⟨by decide, by decide⟩ (by decide) (by decide)
    (by decide) (by decide) (by decide) (by decide) (by decide)

end RVP
